import Mathlib

/-!
# Verification of the Seattle traffic-camera dashboard core

Shallow embedding of the data-normalization and media-lifecycle core of the
traffic-camera dashboard:

* `src/services/arcgis.ts` — the ArcGIS GeoJSON feed adapter (`findUrl`,
  `findString`, `mapFeature`, and the pure mapping pipeline inside
  `fetchArcGISCameras`);
* `src/services/api.ts` — the Socrata feed adapter (`fetchCameras`, in its
  revision with the 10-second abort timeout);
* `src/components/CameraCard.tsx` — the per-camera media lifecycle controller
  (image-first playback, viewport auto-pause, snapshot refresh timer);
* `MapView` — marker placement over parsed latitude/longitude strings;
* the camera-registry revalidation ordering (the bookkeeping lives in the
  external `swr` dependency; it is modelled from the specification).

JavaScript values that reach the adapters are parsed JSON.  A JSON number is
only ever observed through `Number.prototype.toString` (template literals and
`.toString()` calls) — the adapters perform no arithmetic on it — so a number
is modelled by its decimal rendering, which is never the empty string.
A JavaScript object's property set is modelled as an association list in
`Object.keys` iteration order (insertion order); lookup takes the first
binding with the given key.
-/

namespace TrafficFeed

/-- A JavaScript number as it appears in parsed JSON (geometry coordinates,
numeric property values).  Modelled by its decimal string rendering, which for
a JS number is never empty. -/
structure JSNumber where
  render : String
  ne : render ≠ ""

/-- A parsed JSON value, as delivered by `response.json()`.  Feature property
sets are open/unknown schema, so property values range over all of these. -/
inductive JsonVal where
  | str (s : String)
  | num (n : JSNumber)
  | bool (b : Bool)
  | null
  | obj (fields : List (String × JsonVal))
  | arr (elems : List JsonVal)

/-- ASCII case folding of one character, as `String.prototype.toLowerCase`
acts on the ASCII candidate/property keys the adapters compare. -/
def lowerChar (c : Char) : Char :=
  if 65 ≤ c.toNat ∧ c.toNat ≤ 90 then Char.ofNat (c.toNat + 32) else c

/-- `s.toLowerCase()` on ASCII strings. -/
def lowerStr (s : String) : String :=
  String.mk (s.toList.map lowerChar)

/-- `as` is a prefix of `bs` (character lists). -/
def strStartsL : List Char → List Char → Bool
  | [], _ => true
  | _ :: _, [] => false
  | a :: as, b :: bs => a = b && strStartsL as bs

/-- `s.startsWith(p)` for JS strings. -/
def strStarts (p s : String) : Bool :=
  strStartsL p.toList s.toList

/-- `props[k]` — property access by exact key, first binding wins
(JS object keys are unique; the list models `Object.keys` order). -/
def lookupKey (props : List (String × JsonVal)) (k : String) : Option JsonVal :=
  match props with
  | [] => none
  | (k', v) :: rest => if k' = k then some v else lookupKey rest k

/-- `Object.keys(props).find((k) => k.toLowerCase() === candidate.toLowerCase())`:
the first key in iteration order that matches the candidate case-insensitively. -/
def findKeyCI (props : List (String × JsonVal)) (cand : String) : Option String :=
  (props.map (fun p => p.1)).find? (fun k => lowerStr k == lowerStr cand)

/-- Loop body of `findUrl` for one candidate: take the first
case-insensitively matching key, and accept its value only if it is a string
starting with `http`; otherwise this candidate fails and the loop continues. -/
def urlCand (props : List (String × JsonVal)) (cand : String) : Option String :=
  match findKeyCI props cand with
  | some k =>
    match lookupKey props k with
    | some (.str v) => if strStarts "http" v then some v else none
    | _ => none
  | none => none

/-- `findUrl` from `src/services/arcgis.ts`: walk the candidate list in
priority order, returning the first candidate's accepted value; `''` when no
candidate matches. -/
def findUrl (props : List (String × JsonVal)) : List String → String
  | [] => ""
  | cand :: rest =>
    match urlCand props cand with
    | some v => v
    | none => findUrl props rest

/-- Loop body of `findString` for one candidate: first case-insensitively
matching key, accepted when its value is a truthy (non-empty) string. -/
def strCand (props : List (String × JsonVal)) (cand : String) : Option String :=
  match findKeyCI props cand with
  | some k =>
    match lookupKey props k with
    | some (.str v) => if v = "" then none else some v
    | _ => none
  | none => none

/-- `findString` from `src/services/arcgis.ts`: like `findUrl` but accepts any
truthy string value. -/
def findString (props : List (String × JsonVal)) : List String → String
  | [] => ""
  | cand :: rest =>
    match strCand props cand with
    | some v => v
    | none => findString props rest

/-- The value of `(nested as \x7b url?: string \x7d).url ?? ''` as it flows into
the (string-typed) record URL fields.  The embedding carries the value's JS
string rendering and preserves JS truthiness exactly: the result is `""` iff
the JS value is falsy (`undefined`/`null`/`''`/`false`/`0`).  Non-string
renderings (`[object Object]`, array joins, digit strings) are never examined
further by the program, only tested for truthiness and spliced into URLs. -/
def urlFieldToString : JsonVal → String
  | .str s => s
  | .num n => if n.render = "0" ∨ n.render = "-0" then "" else n.render
  | .bool b => if b then "true" else ""
  | .null => ""
  | .obj _ => "[object Object]"
  | .arr _ => "[array]"

/-- The nested-object fallback of `mapFeature`:
`props['key']` (exact, lowercase key — no case-insensitive scan here), and if
it holds an object, its `url` field via `?? ''`.  JS `typeof x === 'object'`
is true for objects and arrays (and `null`, which the truthiness guard
`nested &&` excludes); an array has no `url` property, yielding `''`. -/
def nestedUrl (props : List (String × JsonVal)) (key : String) : String :=
  match lookupKey props key with
  | some (.obj fields) =>
    match lookupKey fields "url" with
    | some v => urlFieldToString v
    | none => ""
  | _ => ""

/-- The two-step URL resolution pattern of `mapFeature`:
`findUrl(props, cands) || nestedFallback` — the nested fallback is consulted
only when the flat scan produced the falsy `''`. -/
def resolveUrl (props : List (String × JsonVal)) (cands : List String)
    (nestedKey : String) : String :=
  let flat := findUrl props cands
  if flat = "" then nestedUrl props nestedKey else flat

/-- `feature.id`, typed `number | string` in the source. -/
inductive FeatureId where
  | num (n : JSNumber)
  | str (s : String)

/-- Template-literal rendering of `feature.id ?? ''`. -/
def idRender : Option FeatureId → String
  | none => ""
  | some (.num n) => n.render
  | some (.str s) => s

/-- A GeoJSON point geometry: `coordinates: [number, number]` as `[lng, lat]`. -/
structure GeoPoint where
  lng : JSNumber
  lat : JSNumber

/-- An ArcGIS GeoJSON feature (`ArcGISFeature` in the source): optional id,
nullable point geometry, and an open property set. -/
structure ArcGISFeature where
  id : Option FeatureId
  geometry : Option GeoPoint
  properties : List (String × JsonVal)

/-- `imageurl` / `video_url` / `web_url` nested shape of the canonical record. -/
structure UrlField where
  url : String

/-- `location` field of the canonical record. -/
structure GeoLocation where
  latitude : String
  longitude : String

/-- The canonical camera record, `TrafficCamera` from `src/types.ts`. -/
structure TrafficCamera where
  cameralabel : String
  imageurl : UrlField
  video_url : Option UrlField
  web_url : Option UrlField
  x_coord : String
  y_coord : String
  location : GeoLocation

/-- `geometry?.coordinates[0]?.toString() ?? findString(props, ['longitude', 'lon', 'long', 'x'])` —
the resolved longitude string: geometry is preferred; the property scan runs
only when geometry is `null`. -/
def lngStr (f : ArcGISFeature) : String :=
  match f.geometry with
  | some p => p.lng.render
  | none => findString f.properties ["longitude", "lon", "long", "x"]

/-- `geometry?.coordinates[1]?.toString() ?? findString(props, ['latitude', 'lat', 'y'])`. -/
def latStr (f : ArcGISFeature) : String :=
  match f.geometry with
  | some p => p.lat.render
  | none => findString f.properties ["latitude", "lat", "y"]

/-- Label resolution of `mapFeature`: prioritized `findString` scan, with the
synthesized `Camera <feature id>` fallback when the scan yields `''`. -/
def labelStr (f : ArcGISFeature) : String :=
  let found := findString f.properties
    ["cameralabel", "camera_label", "label", "name", "description", "camera_name", "title"]
  if found = "" then "Camera " ++ idRender f.id else found

/-- `rawImageUrl` of `mapFeature`: flat scan over the snapshot candidates, then
the nested fallback on the literal `imageurl` property. -/
def rawImageUrl (props : List (String × JsonVal)) : String :=
  resolveUrl props ["imageurl", "image_url", "imagelink", "photo_url", "snapshot_url"] "imageurl"

/-- `rawVideoUrl` of `mapFeature`. -/
def rawVideoUrl (props : List (String × JsonVal)) : String :=
  resolveUrl props ["video_url", "videourl", "stream_url", "hls_url", "hlsurl"] "video_url"

/-- `rawWebUrl` of `mapFeature`. -/
def rawWebUrl (props : List (String × JsonVal)) : String :=
  resolveUrl props ["web_url", "weburl", "link", "url"] "web_url"

/-- `findString(props, ['x_coord', 'xcoord', 'x']) || lng`. -/
def xCoordStr (f : ArcGISFeature) : String :=
  let s := findString f.properties ["x_coord", "xcoord", "x"]
  if s = "" then lngStr f else s

/-- `findString(props, ['y_coord', 'ycoord', 'y']) || lat`. -/
def yCoordStr (f : ArcGISFeature) : String :=
  let s := findString f.properties ["y_coord", "ycoord", "y"]
  if s = "" then latStr f else s

/-- The record literal `mapFeature` returns when the feature survives both
drop checks. -/
def buildRecord (f : ArcGISFeature) : TrafficCamera :=
  { cameralabel := labelStr f
    imageurl := ⟨rawImageUrl f.properties⟩
    video_url :=
      if rawVideoUrl f.properties = "" then none else some ⟨rawVideoUrl f.properties⟩
    web_url :=
      if rawWebUrl f.properties = "" then none else some ⟨rawWebUrl f.properties⟩
    x_coord := xCoordStr f
    y_coord := yCoordStr f
    location := ⟨latStr f, lngStr f⟩ }

/-- `mapFeature` from `src/services/arcgis.ts`: resolve coordinates (drop on
`!lat || !lng`), resolve the snapshot URL (drop on `!rawImageUrl`), then build
the canonical record; stream and detail URLs are optional. -/
def mapFeature (f : ArcGISFeature) : Option TrafficCamera :=
  if latStr f = "" ∨ lngStr f = "" then none
  else if rawImageUrl f.properties = "" then none
  else some (buildRecord f)

/-- The pure post-processing pipeline of `fetchArcGISCameras`:
`data.features.map(mapFeature).filter((c) => c !== null)`. -/
def normalizeFeatures (fs : List ArcGISFeature) : List TrafficCamera :=
  (fs.map mapFeature).filterMap id

/-- Geometry point `[-122.33, 47.60]` used by the specification's scenario
and by concrete witnesses. -/
def pt0 : GeoPoint :=
  ⟨⟨"-122.33", by decide⟩, ⟨"47.6", by decide⟩⟩

/-- Scenario from the specification: feature with a geometry point and
`CameraLabel: "5th Ave"`, `ImageURL: "http://x/img.jpg"`. -/
def specScenarioFeature : ArcGISFeature :=
  { id := none
    geometry := some pt0
    properties :=
      [("CameraLabel", .str "5th Ave"), ("ImageURL", .str "http://x/img.jpg")] }

/-! ## Socrata feed adapter (`src/services/api.ts`, revision with the abort timeout)

`fetchCameras` races the HTTP response against a 10-second `setTimeout` that
calls `controller.abort()`; the `finally` block clears the timer once the
fetch settles.  The asynchronous race is embedded as a function of an abstract
network environment: when (if ever) the response settles, whether it was a
success status, and its parsed body. -/

/-- `FETCH_TIMEOUT_MS` from `src/services/api.ts`. -/
def FETCH_TIMEOUT_MS : Nat := 10000

/-- Failure modes of `fetchCameras`: the abort rejection raised when the
timeout fires mid-flight, or the `Failed to fetch cameras: <status>` error
thrown on a non-ok response. -/
inductive FetchErr where
  | aborted
  | httpError (status : Nat)

/-- Abstract network environment for one Socrata request. -/
structure SocrataEnv where
  /-- milliseconds after the request is issued at which the HTTP response
  settles; `none` when it never settles. -/
  responseArrival : Option Nat
  /-- `response.ok` -/
  ok : Bool
  /-- `response.status` -/
  status : Nat
  /-- the parsed JSON body (pass-through: already canonical records) -/
  body : List TrafficCamera

/-- The response settles strictly before the 10-second timer fires. -/
def respondedInTime (env : SocrataEnv) : Bool :=
  match env.responseArrival with
  | some t => t < FETCH_TIMEOUT_MS
  | none => false

/-- `fetchCameras` from `src/services/api.ts`: if the timer fires first the
aborted fetch rejects; otherwise a non-ok response throws, and an ok response
resolves with the parsed body. -/
def fetchCameras (env : SocrataEnv) : Except FetchErr (List TrafficCamera) :=
  if respondedInTime env then
    if env.ok then .ok env.body
    else .error (.httpError env.status)
  else .error .aborted

/-- Whether the `setTimeout` callback ran `controller.abort()`: exactly when
the response had not settled when the timer fired (once the fetch settles the
`finally` block's `clearTimeout` cancels the pending timer). -/
def abortFired (env : SocrataEnv) : Bool :=
  !respondedInTime env

/-! ## Camera registry revalidation ordering

Modelled from the spec: the camera registry's revalidation bookkeeping (the
`useSWR` cache keyed by `cameras-<source>-<url>`) lives in the external `swr`
dependency, not in this repository; only the call site is in the source.  Per
the spec's words: the registry tracks a per-key generation/sequence, a newly
issued revalidation bumps the generation of its key and makes that key
current, and a response is discarded on arrival unless it carries the latest
generation for its key.  The registry "holds" the data stored for the current
(last requested) key. -/

/-- Registry keys: `(source, endpoint)` identity strings. -/
abbrev RegKey := String

/-- Update-or-insert on an association list (first binding wins). -/
def setAssoc {α : Type} : List (RegKey × α) → RegKey → α → List (RegKey × α)
  | [], k, v => [(k, v)]
  | (k', v') :: t, k, v =>
    if k' = k then (k, v) :: t else (k', v') :: setAssoc t k v

/-- First-binding lookup on an association list. -/
def getAssoc {α : Type} : List (RegKey × α) → RegKey → Option α
  | [], _ => none
  | (k', v) :: t, k => if k' = k then some v else getAssoc t k

/-- Camera registry state: latest issued generation per key, stored list per
key, and the current (last requested) key. -/
structure RegState where
  gen : List (RegKey × Nat)
  data : List (RegKey × List TrafficCamera)
  current : Option RegKey

/-- Latest issued generation for a key (0 before any issue). -/
def genOf (s : RegState) (k : RegKey) : Nat :=
  (getAssoc s.gen k).getD 0

/-- Registry events: issuing a revalidation for a key, and a fetch issued with
generation `g` for key `k` resolving with data `d`. -/
inductive RegEvent where
  | issue (k : RegKey)
  | arrive (k : RegKey) (g : Nat) (d : List TrafficCamera)

/-- One step of the registry: an issue bumps the key's generation and makes
the key current; an arrival is applied only if it carries the key's latest
generation, and is discarded otherwise. -/
def regStep (s : RegState) : RegEvent → RegState
  | .issue k => { s with gen := setAssoc s.gen k (genOf s k + 1), current := some k }
  | .arrive k g d =>
    if g = genOf s k then { s with data := setAssoc s.data k d } else s

/-- The list the registry currently holds (data stored for the current key). -/
def heldData (s : RegState) : Option (List TrafficCamera) :=
  s.current.bind (getAssoc s.data)

/-! ## Media lifecycle controller (`src/components/CameraCard.tsx`)

The card's lifecycle-relevant state is `isInView` (IntersectionObserver),
`isVideoPlaying` (image-first; `useState(false)`), and the snapshot cache-bust
`timestamp`.  Events are the observer callbacks, the play/stop buttons, the
`VideoPlayer` callbacks, and the refresh-interval tick.  React's
auto-pause effect (`if (!isInView && isVideoPlaying) setIsVideoPlaying(false)`)
is folded into the leave-view step. -/

/-- Default `refreshInterval` prop of `CameraCard`: 30 000 ms. -/
def defaultRefreshInterval : Nat := 30000

/-- Lifecycle-relevant component state of one `CameraCard`. -/
structure CardState where
  isInView : Bool
  isVideoPlaying : Bool
  timestamp : Nat

/-- Mount state: `useState(false)` for both flags, `Date.now()` for the
timestamp. -/
def initCard (t0 : Nat) : CardState :=
  { isInView := false, isVideoPlaying := false, timestamp := t0 }

/-- Events a mounted card can receive. -/
inductive CardEvent where
  | enterView
  | leaveView
  | clickPlay
  | clickStop
  | videoError
  | videoLoad
  | tick (now : Nat)

/-- The snapshot refresh interval is active: the effect registers the
`setInterval` unless `isVideoPlaying` (its only guard — `isInView` is not a
dependency of that effect). -/
def timerActive (s : CardState) : Bool :=
  !s.isVideoPlaying

/-- The `VideoPlayer` is mounted: render condition
`isVideoPlaying && videoUrl && isInView`. -/
def playerMounted (videoUrl : Option String) (s : CardState) : Bool :=
  s.isVideoPlaying && videoUrl.isSome && s.isInView

/-- The play button is rendered: `videoUrl && !isVideoPlaying`. -/
def playOffered (videoUrl : Option String) (s : CardState) : Bool :=
  videoUrl.isSome && !s.isVideoPlaying

/-- One step of the card state machine. -/
def stepCard (videoUrl : Option String) (s : CardState) : CardEvent → CardState
  | .enterView => { s with isInView := true }
  | .leaveView => { s with isInView := false, isVideoPlaying := false }
  | .clickPlay =>
    if playOffered videoUrl s then { s with isVideoPlaying := true } else s
  | .clickStop =>
    if s.isVideoPlaying then { s with isVideoPlaying := false } else s
  | .videoError =>
    if playerMounted videoUrl s then { s with isVideoPlaying := false } else s
  | .videoLoad => s
  | .tick now =>
    if timerActive s then { s with timestamp := now } else s

/-- Run a card through a sequence of events. -/
def runCard (videoUrl : Option String) (s : CardState) (evs : List CardEvent) : CardState :=
  evs.foldl (stepCard videoUrl) s

/-- The snapshot URL the card requests:
`` `${camera.imageurl.url}?t=${timestamp}` `` — cache-busting query parameter. -/
def snapshotSrc (cam : TrafficCamera) (ts : Nat) : String :=
  cam.imageurl.url ++ "?t=" ++ Nat.repr ts

/-! ## Map placement (`MapView`)

`MapView` filters the camera list with
`c.location?.latitude && c.location?.longitude &&
!isNaN(parseFloat(lat)) && !isNaN(parseFloat(lng))` and adds one marker per
surviving record.  `parseFloat` is modelled by its ECMAScript definition:
skip leading whitespace, optional sign, the `Infinity` literal or a decimal
literal (digits, optional fraction, optional exponent), longest valid prefix,
`NaN` when no prefix parses.  (Overflow of huge finite literals to `Infinity`
is not modelled.) -/

/-- Classification of a `parseFloat` result. -/
inductive JsParsed where
  | nan
  | inf
  | neginf
  | finite (q : ℚ)

/-- ASCII digit test. -/
def isDigitC (c : Char) : Bool :=
  48 ≤ c.toNat && c.toNat ≤ 57

/-- Decimal digits to a natural number. -/
def digitsToNat (ds : List Char) : Nat :=
  ds.foldl (fun acc c => acc * 10 + (c.toNat - 48)) 0

/-- Skip leading whitespace. -/
def skipWs : List Char → List Char
  | [] => []
  | c :: cs => if c.isWhitespace then skipWs cs else c :: cs

/-- Optional leading sign: `(negative, rest)`. -/
def readSign : List Char → Bool × List Char
  | '-' :: cs => (true, cs)
  | '+' :: cs => (false, cs)
  | cs => (false, cs)

/-- Exponent part after the `e`/`E`: optional sign then digits; an exponent
with no digits is not consumed (contributes 0). -/
def readExpTail (cs : List Char) : Int :=
  let p := readSign cs
  let ds := p.2.takeWhile isDigitC
  if ds = [] then 0
  else if p.1 then -(digitsToNat ds : Int) else (digitsToNat ds : Int)

/-- Optional exponent part of a decimal literal. -/
def readExp : List Char → Int
  | 'e' :: cs => readExpTail cs
  | 'E' :: cs => readExpTail cs
  | _ => 0

/-- ECMAScript `parseFloat`. -/
def jsParseFloat (s : String) : JsParsed :=
  let cs := skipWs s.toList
  let p := readSign cs
  let neg := p.1
  let cs1 := p.2
  if strStartsL "Infinity".toList cs1 then (if neg then .neginf else .inf)
  else
    let ip := cs1.takeWhile isDigitC
    let cs2 := cs1.drop ip.length
    let fp :=
      match cs2 with
      | '.' :: rest => rest.takeWhile isDigitC
      | _ => []
    let cs3 :=
      match cs2 with
      | '.' :: rest => rest.drop fp.length
      | _ => cs2
    if ip = [] ∧ fp = [] then .nan
    else
      let ex := readExp cs3
      let mant : ℚ := (digitsToNat (ip ++ fp) : ℚ) / ((10 : ℚ) ^ fp.length)
      let v : ℚ := mant * (10 : ℚ) ^ ex
      .finite (if neg then -v else v)

/-- `isNaN(x)` on a `parseFloat` result. -/
def isNanB : JsParsed → Bool
  | .nan => true
  | _ => false

/-- The result is a finite number (what the spec's "parse as finite numbers"
denotes): not `NaN` and not `±Infinity`. -/
def parsesFinite (s : String) : Bool :=
  match jsParseFloat s with
  | .finite _ => true
  | _ => false

/-- The `MapView` marker filter predicate:
`c.location?.latitude && c.location?.longitude &&
!isNaN(parseFloat(c.location.latitude)) && !isNaN(parseFloat(c.location.longitude))`. -/
def markerPred (c : TrafficCamera) : Bool :=
  c.location.latitude != "" && c.location.longitude != "" &&
  !(isNanB (jsParseFloat c.location.latitude)) &&
  !(isNanB (jsParseFloat c.location.longitude))

/-- `validCameras` from `MapView`: the records that receive a marker
(`validCameras.forEach` adds exactly one marker per element). -/
def validCameras (cams : List TrafficCamera) : List TrafficCamera :=
  cams.filter markerPred

/-! ## Concrete inputs for witnesses and counterexamples -/

/-- Feature with a geometry point and no usable snapshot candidate. -/
def noSnapshotFeature : ArcGISFeature :=
  { id := none, geometry := some pt0, properties := [("name", .str "NE 45th St")] }

/-- Feature with no geometry and scannable coordinate properties. -/
def propCoordFeature : ArcGISFeature :=
  { id := none
    geometry := none
    properties :=
      [("LON", .str "-122.30"), ("Lat", .str "47.61"),
       ("imageurl", .str "http://x/img2.jpg")] }

/-- Feature with neither geometry nor lat/lng properties, but with a snapshot
URL. -/
def noCoordFeature : ArcGISFeature :=
  { id := none, geometry := none, properties := [("imageurl", .str "http://x/img3.jpg")] }

/-- C3 counterexample feature: a `CAMERALABEL` key holding a number shadows
(in `Object.keys` iteration order) the `CameraLabel` key holding `"A"` for the
`cameralabel` candidate, so the label scan falls through to `name`. -/
def shadowedLabelFeature : ArcGISFeature :=
  { id := none
    geometry := some pt0
    properties :=
      [("CAMERALABEL", .num ⟨"7", by decide⟩),
       ("CameraLabel", .str "A"),
       ("Name", .str "B"),
       ("ImageURL", .str "http://x/img.jpg")] }

/-- C10 witness property set: the flat scan fails (both image keys hold
objects, not strings) and the nested fallback sees only the exact lowercase
`imageurl` binding, whose `url` does not start with `http`. -/
def nestedOnlyProps : List (String × JsonVal) :=
  [("ImageURL", .obj [("url", .str "http://a/cased.jpg")]),
   ("imageurl", .obj [("url", .str "ftp://b/img.jpg")])]

/-- C9 counterexample record: latitude `"Infinity"` parses to a non-finite
number, yet `!isNaN` admits it. -/
def infinityCamera : TrafficCamera :=
  { cameralabel := "Aurora Br"
    imageurl := ⟨"http://x/aurora.jpg"⟩
    video_url := none
    web_url := none
    x_coord := "0"
    y_coord := "0"
    location := ⟨"Infinity", "-122.33"⟩ }

/-- Camera record whose latitude does not parse at all. -/
def badLatCamera : TrafficCamera :=
  { cameralabel := "Broken"
    imageurl := ⟨"http://x/broken.jpg"⟩
    video_url := none
    web_url := none
    x_coord := "0"
    y_coord := "0"
    location := ⟨"n/a", "-122.33"⟩ }

/-- Socrata environment in which the response never settles. -/
def hungEnv : SocrataEnv :=
  { responseArrival := none, ok := true, status := 200, body := [] }

/-- Empty initial registry state. -/
def reg0 : RegState :=
  { gen := [], data := [], current := none }

/-- The spec's revalidation race, as an event sequence: issue a revalidation
for key `A` (its fetch carries `A`'s then-latest generation), then one for key
`B`; `B`'s fetch resolves first, `A`'s resolves after it. -/
def raceTrace (s0 : RegState) (A B : RegKey) (dA dB : List TrafficCamera) : RegState :=
  let s1 := regStep s0 (.issue A)
  let gA := genOf s1 A
  let s2 := regStep s1 (.issue B)
  let gB := genOf s2 B
  regStep (regStep s2 (.arrive B gB dB)) (.arrive A gA dA)

/-! ## Sanity checks of the embedding on concrete inputs -/

example :
    mapFeature specScenarioFeature =
      some
        { cameralabel := "5th Ave"
          imageurl := ⟨"http://x/img.jpg"⟩
          video_url := none
          web_url := none
          x_coord := "-122.33"
          y_coord := "47.6"
          location := ⟨"47.6", "-122.33"⟩ } := rfl

example :
    mapFeature
      { id := none
        geometry := none
        properties := [("imageurl", .obj [("url", .str "http://x/img.jpg")])] } =
      none := rfl

example : jsParseFloat "Infinity" = .inf := rfl
example : isNanB (jsParseFloat "Infinity") = false := rfl
example : parsesFinite "Infinity" = false := rfl
example : isNanB (jsParseFloat "") = true := rfl
example : isNanB (jsParseFloat "abc") = true := rfl
example : parsesFinite "47.6" = true := rfl
example : parsesFinite "  -122.33abc" = true := rfl
example : jsParseFloat "12.5" = .finite (25 / 2 : ℚ) := by
  simp [jsParseFloat, skipWs, readSign, strStartsL, readExp, digitsToNat, isDigitC]
  norm_num

/-! ## Helper lemmas -/

theorem normalizeFeatures_append (xs ys : List ArcGISFeature) :
    normalizeFeatures (xs ++ ys) = normalizeFeatures xs ++ normalizeFeatures ys := by
  simp [normalizeFeatures]

/-- Inversion of `mapFeature`: an emitted record is the built record, and both
drop checks failed to fire. -/
theorem mapFeature_eq_some (f : ArcGISFeature) (cam : TrafficCamera)
    (h : mapFeature f = some cam) :
    cam = buildRecord f ∧ rawImageUrl f.properties ≠ "" ∧
      ¬(latStr f = "" ∨ lngStr f = "") := by
  unfold mapFeature at h
  split at h
  · simp at h
  · split at h
    · simp at h
    · rename_i hco him
      injection h with h
      exact ⟨h.symm, him, hco⟩

theorem mapFeature_none_of_no_image (f : ArcGISFeature)
    (h : rawImageUrl f.properties = "") : mapFeature f = none := by
  simp [mapFeature, h]

/-! ## Claim theorems -/

/-- C1: if neither the case-insensitive flat scan of the snapshot candidate
keys yields an `http`-prefixed string, nor the property literally named
`imageurl` holds a nested object with a non-empty `url` field (i.e. the
nested fallback also yields `''`), then `mapFeature` emits no record for the
feature and the normalized output of the `fetchArcGISCameras` pipeline shrinks
by exactly that feature; consequently every record the pipeline returns has a
non-empty snapshot URL. -/
theorem c1_snapshot_mandatory (f : ArcGISFeature) (fs gs hs : List ArcGISFeature) :
    (findUrl f.properties ["imageurl", "image_url", "imagelink", "photo_url", "snapshot_url"] = "" →
      nestedUrl f.properties "imageurl" = "" →
      mapFeature f = none ∧
        normalizeFeatures (fs ++ f :: gs) = normalizeFeatures (fs ++ gs)) ∧
    ∀ cam ∈ normalizeFeatures hs, cam.imageurl.url ≠ "" := by
  constructor
  · intro h1 h2
    have himg : rawImageUrl f.properties = "" := by
      simp [rawImageUrl, resolveUrl, h1, h2]
    have hnone := mapFeature_none_of_no_image f himg
    refine ⟨hnone, ?_⟩
    simp [normalizeFeatures, hnone]
  · intro cam hcam
    simp [normalizeFeatures, List.mem_filterMap, List.mem_map] at hcam
    obtain ⟨g, hg, hmap⟩ := hcam
    obtain ⟨hcamEq, him, -⟩ := mapFeature_eq_some g cam hmap
    rw [hcamEq]
    simpa [buildRecord] using him

/-- Witness for C1 at `noSnapshotFeature` (geometry present, only a `name`
property): both resolution paths yield `''`, the feature is dropped, and the
one-feature pipeline output is empty. -/
theorem c1_snapshot_mandatory_witness :
    mapFeature noSnapshotFeature = none ∧
      normalizeFeatures ([] ++ noSnapshotFeature :: []) = normalizeFeatures ([] ++ []) :=
  (c1_snapshot_mandatory noSnapshotFeature [] [] []).1 rfl rfl

/-- C2: coordinate resolution prefers the geometry point (whose rendered
components are never empty); with geometry absent it falls back to the
case-insensitive property scans for longitude-like and latitude-like keys; a
feature for which the resolved latitude or longitude is empty is dropped with
no further checks (in particular regardless of any snapshot URL); and an
emitted record carries exactly the resolved strings. -/
theorem c2_coordinate_resolution (f : ArcGISFeature) :
    (∀ p, f.geometry = some p →
      lngStr f = p.lng.render ∧ latStr f = p.lat.render ∧
        latStr f ≠ "" ∧ lngStr f ≠ "") ∧
    (f.geometry = none →
      lngStr f = findString f.properties ["longitude", "lon", "long", "x"] ∧
        latStr f = findString f.properties ["latitude", "lat", "y"]) ∧
    ((latStr f = "" ∨ lngStr f = "") → mapFeature f = none) ∧
    (∀ cam, mapFeature f = some cam →
      cam.location.latitude = latStr f ∧ cam.location.longitude = lngStr f) := by
  refine ⟨?_, ?_, ?_, ?_⟩
  · intro p hp
    simp [lngStr, latStr, hp, p.lng.ne, p.lat.ne]
  · intro hp
    simp [lngStr, latStr, hp]
  · intro h
    simp [mapFeature, h]
  · intro cam h
    obtain ⟨hEq, -, -⟩ := mapFeature_eq_some f cam h
    rw [hEq]
    exact ⟨rfl, rfl⟩

/-- Witness for C2: the property-scan fallback resolves `LON`/`Lat` keys for a
geometry-less feature; a feature with neither path resolvable is dropped even
though it has a snapshot URL; the geometry path wins on the spec scenario. -/
theorem c2_coordinate_resolution_witness :
    (lngStr propCoordFeature = "-122.30" ∧ latStr propCoordFeature = "47.61") ∧
      mapFeature noCoordFeature = none ∧
      (lngStr specScenarioFeature = "-122.33" ∧ latStr specScenarioFeature = "47.6") := by
  refine ⟨?_, ?_, ?_⟩
  · have h := (c2_coordinate_resolution propCoordFeature).2.1 rfl
    exact ⟨h.1.trans rfl, h.2.trans rfl⟩
  · exact (c2_coordinate_resolution noCoordFeature).2.2.1 (Or.inl rfl)
  · have h := (c2_coordinate_resolution specScenarioFeature).1 pt0 rfl
    exact ⟨h.1.trans rfl, h.2.1.trans rfl⟩

/-- C3 counterexample: the claim states that whenever the properties contain
both a `cameralabel` key and a `name` key (in any letter case) with different
non-empty string values, the emitted label equals the `cameralabel` value.
`shadowedLabelFeature` has `CameraLabel: "A"` and `Name: "B"`, yet the emitted
label is `"B"`: the earlier key `CAMERALABEL` (holding a number) is the first
case-insensitive match for the `cameralabel` candidate in iteration order, its
non-string value fails the candidate, and the scan falls through to `name` —
so iteration order does affect the result, contradicting the claim. -/
theorem c3_counterexample :
    lookupKey shadowedLabelFeature.properties "CameraLabel" = some (.str "A") ∧
    lookupKey shadowedLabelFeature.properties "Name" = some (.str "B") ∧
    (mapFeature shadowedLabelFeature).map (fun c => c.cameralabel) = some "B" :=
  ⟨rfl, rfl, rfl⟩

/-- C3 (amended): in every candidate-key scan, keys are matched
case-insensitively and the first candidate in priority order whose first
case-insensitively matching key (in the property set's iteration order) holds
an acceptable value wins; in particular, when the first key matching
`cameralabel` case-insensitively holds a non-empty string value, the emitted
label equals that value (regardless of any `name` key). -/
theorem c3_candidate_priority (f : ArcGISFeature) (k v : String) :
    findKeyCI f.properties "cameralabel" = some k →
    lookupKey f.properties k = some (.str v) →
    v ≠ "" →
    findString f.properties
        ["cameralabel", "camera_label", "label", "name", "description",
         "camera_name", "title"] = v ∧
      ∀ cam, mapFeature f = some cam → cam.cameralabel = v := by
  intro h1 h2 h3
  have hscan : strCand f.properties "cameralabel" = some v := by
    simp [strCand, h1, h2, h3]
  have hfind :
      findString f.properties
        ["cameralabel", "camera_label", "label", "name", "description",
         "camera_name", "title"] = v := by
    simp [findString, hscan]
  refine ⟨hfind, ?_⟩
  intro cam h
  obtain ⟨hEq, -, -⟩ := mapFeature_eq_some f cam h
  rw [hEq]
  simp [buildRecord, labelStr, hfind, h3]

/-- Witness for C3 (amended) at the spec scenario: `CameraLabel` is the first
(and only) case-insensitive match for `cameralabel` and wins over any later
candidate. -/
theorem c3_candidate_priority_witness :
    findString specScenarioFeature.properties
        ["cameralabel", "camera_label", "label", "name", "description",
         "camera_name", "title"] = "5th Ave" ∧
      (mapFeature specScenarioFeature).map (fun c => c.cameralabel) = some "5th Ave" := by
  have h := c3_candidate_priority specScenarioFeature "CameraLabel" "5th Ave" rfl rfl (by decide)
  have h2 : (buildRecord specScenarioFeature).cameralabel = "5th Ave" := h.2 _ rfl
  refine ⟨h.1, ?_⟩
  rw [show mapFeature specScenarioFeature = some (buildRecord specScenarioFeature) from rfl]
  simp [h2]

/-- C4: the Socrata `fetchCameras` (revision with the `AbortController`
timeout) fails exactly when the response is not ok or does not settle within
the 10-second timeout; timing out yields the abort rejection with the
in-flight request aborted, and a response that settles in time means the abort
timer never fires (`clearTimeout` in the `finally` block). -/
theorem c4_socrata_failure (env : SocrataEnv) :
    ((∃ e, fetchCameras env = .error e) ↔
      env.ok = false ∨ respondedInTime env = false) ∧
    (respondedInTime env = true ↔
      ∃ t, env.responseArrival = some t ∧ t < FETCH_TIMEOUT_MS) ∧
    (respondedInTime env = false →
      fetchCameras env = .error .aborted ∧ abortFired env = true) ∧
    (respondedInTime env = true → abortFired env = false) := by
  refine ⟨?_, ?_, ?_, ?_⟩
  · cases hr : respondedInTime env <;> cases ho : env.ok <;>
      simp [fetchCameras, hr, ho]
  · unfold respondedInTime
    cases h : env.responseArrival with
    | none => simp
    | some t => simp [h]
  · intro h
    simp [fetchCameras, abortFired, h]
  · intro h
    simp [abortFired, h]

/-- Witness for C4 at an environment whose response never settles: the fetch
fails with the abort rejection and the abort fired. -/
theorem c4_socrata_failure_witness :
    fetchCameras hungEnv = .error .aborted ∧ abortFired hungEnv = true :=
  (c4_socrata_failure hungEnv).2.2.1 rfl

theorem getAssoc_setAssoc_self {α : Type} (l : List (RegKey × α)) (k : RegKey) (v : α) :
    getAssoc (setAssoc l k v) k = some v := by
  induction l with
  | nil => simp [setAssoc, getAssoc]
  | cons p t ih =>
    obtain ⟨k', v'⟩ := p
    by_cases h : k' = k
    · simp [setAssoc, getAssoc, h]
    · simp [setAssoc, getAssoc, h, ih]

theorem getAssoc_setAssoc_ne {α : Type} (l : List (RegKey × α)) (k k' : RegKey) (v : α)
    (h : k ≠ k') : getAssoc (setAssoc l k v) k' = getAssoc l k' := by
  induction l with
  | nil => simp [setAssoc, getAssoc, h]
  | cons p t ih =>
    obtain ⟨k₀, v₀⟩ := p
    by_cases h0 : k₀ = k
    · simp [setAssoc, getAssoc, h0, h]
    · simp [setAssoc, getAssoc, h0, ih]

theorem regStep_arrive_latest (s : RegState) (k : RegKey) (d : List TrafficCamera) :
    regStep s (.arrive k (genOf s k) d) = { s with data := setAssoc s.data k d } := by
  simp [regStep]

theorem regStep_arrive_stale (s : RegState) (k : RegKey) (g : Nat)
    (d : List TrafficCamera) (h : g ≠ genOf s k) : regStep s (.arrive k g d) = s := by
  simp [regStep, h]

theorem genOf_issue_self (s : RegState) (k : RegKey) :
    genOf (regStep s (.issue k)) k = genOf s k + 1 := by
  simp [regStep, genOf, getAssoc_setAssoc_self]

theorem genOf_issue_ne (s : RegState) (k k' : RegKey) (h : k ≠ k') :
    genOf (regStep s (.issue k)) k' = genOf s k' := by
  simp [regStep, genOf, getAssoc_setAssoc_ne _ _ _ _ h]

/-- C5 (modelled from the spec, the bookkeeping lives in the external `swr`
dependency): in the revalidation race — issue for key `A`, then for key `B`,
`B`'s fetch resolves first and `A`'s stale fetch resolves after it — the
registry ends up holding `B`'s result and never `A`'s, whatever the starting
state (the case `A = B` is decided by the per-key generation check, the case
`A ≠ B` by `B` being the current key). -/
theorem c5_last_revalidation_wins (s0 : RegState) (A B : RegKey)
    (dA dB : List TrafficCamera) (hd : dA ≠ dB) :
    heldData (raceTrace s0 A B dA dB) = some dB ∧
      heldData (raceTrace s0 A B dA dB) ≠ some dA := by
  have hmain : heldData (raceTrace s0 A B dA dB) = some dB := by
    by_cases hAB : A = B
    · subst hAB
      have hTrace : raceTrace s0 A A dA dB =
          regStep
            (regStep (regStep (regStep s0 (.issue A)) (.issue A))
              (.arrive A (genOf (regStep (regStep s0 (.issue A)) (.issue A)) A) dB))
            (.arrive A (genOf (regStep s0 (.issue A)) A) dA) := rfl
      rw [hTrace, regStep_arrive_latest]
      set s2 := regStep (regStep s0 (.issue A)) (.issue A) with hs2
      have hstale : genOf (regStep s0 (.issue A)) A ≠
          genOf { s2 with data := setAssoc s2.data A dB } A := by
        have h1 : genOf (regStep s0 (.issue A)) A = genOf s0 A + 1 :=
          genOf_issue_self s0 A
        have h2 : genOf { s2 with data := setAssoc s2.data A dB } A = genOf s2 A := rfl
        have h3 : genOf s2 A = genOf s0 A + 2 := by
          rw [hs2, genOf_issue_self, genOf_issue_self]
        rw [h1, h2, h3]
        omega
      rw [regStep_arrive_stale _ _ _ _ hstale]
      have hcur : s2.current = some A := rfl
      simp only [heldData, hcur, Option.some_bind]
      exact getAssoc_setAssoc_self s2.data A dB
    · have hTrace : raceTrace s0 A B dA dB =
          regStep
            (regStep (regStep (regStep s0 (.issue A)) (.issue B))
              (.arrive B (genOf (regStep (regStep s0 (.issue A)) (.issue B)) B) dB))
            (.arrive A (genOf (regStep s0 (.issue A)) A) dA) := rfl
      rw [hTrace, regStep_arrive_latest]
      set s2 := regStep (regStep s0 (.issue A)) (.issue B) with hs2
      have hApplied : genOf (regStep s0 (.issue A)) A =
          genOf { s2 with data := setAssoc s2.data B dB } A := by
        have h2 : genOf { s2 with data := setAssoc s2.data B dB } A = genOf s2 A := rfl
        rw [h2, hs2, genOf_issue_ne _ _ _ (fun h => hAB h.symm)]
      rw [hApplied, regStep_arrive_latest]
      have hcur : s2.current = some B := rfl
      simp only [heldData, hcur, Option.some_bind]
      rw [getAssoc_setAssoc_ne _ A B _ hAB]
      exact getAssoc_setAssoc_self s2.data B dB
  refine ⟨hmain, ?_⟩
  rw [hmain]
  intro hcontra
  injection hcontra with hcontra
  exact hd hcontra.symm

/-- Witness for C5 with `A = B`: the stale first fetch's arrival after the
newer one leaves the newer result in place. -/
theorem c5_last_revalidation_wins_witness :
    heldData (raceTrace reg0 "cameras-sdot" "cameras-sdot" [] [infinityCamera]) =
        some [infinityCamera] ∧
      heldData (raceTrace reg0 "cameras-sdot" "cameras-sdot" [] [infinityCamera]) ≠
        some [] :=
  c5_last_revalidation_wins reg0 "cameras-sdot" "cameras-sdot" [] [infinityCamera]
    (by simp)

/-- C6 counterexample: the claim states the snapshot refresh timer is
suspended while the card is out of the viewport.  In the state "out of view,
not streaming" the refresh effect still registers its interval — its only
guard is `isVideoPlaying`, and `isInView` is not among the effect's
dependencies — so the timer is active. -/
theorem c6_counterexample :
    timerActive { isInView := false, isVideoPlaying := false, timestamp := 0 } = true ∧
    CardState.isInView { isInView := false, isVideoPlaying := false, timestamp := 0 } = false ∧
    CardState.isVideoPlaying
        { isInView := false, isVideoPlaying := false, timestamp := 0 } = false :=
  ⟨rfl, rfl, rfl⟩

/-- C6 (amended): while the card is not streaming, the snapshot URL is
re-fetched with a cache-busting `?t=<timestamp>` query parameter on a fixed
interval of 30 seconds by default; the refresh timer is suspended while
streaming, but it is not suspended while the card is out of the viewport — it
runs whenever the video is not playing, `isInView` notwithstanding. -/
theorem c6_snapshot_refresh (s : CardState) (u : Option String) (now : Nat)
    (cam : TrafficCamera) (ts : Nat) :
    timerActive s = !s.isVideoPlaying ∧
    (s.isVideoPlaying = true → timerActive s = false) ∧
    (s.isVideoPlaying = false → s.isInView = false → timerActive s = true) ∧
    (timerActive s = true → stepCard u s (.tick now) = { s with timestamp := now }) ∧
    snapshotSrc cam ts = cam.imageurl.url ++ "?t=" ++ Nat.repr ts ∧
    defaultRefreshInterval = 30000 := by
  refine ⟨rfl, ?_, ?_, ?_, rfl, rfl⟩
  · intro h
    simp [timerActive, h]
  · intro h _
    simp [timerActive, h]
  · intro h
    simp [stepCard, h]

/-- Witness for C6 (amended) at the freshly mounted (out-of-view,
non-streaming) card: the timer is active and a tick refreshes the
cache-busting timestamp. -/
theorem c6_snapshot_refresh_witness :
    timerActive (initCard 5) = true ∧
      stepCard none (initCard 5) (.tick 7) =
        { isInView := false, isVideoPlaying := false, timestamp := 7 } := by
  have h := c6_snapshot_refresh (initCard 5) none 7 infinityCamera 3
  exact ⟨h.2.2.1 rfl rfl, h.2.2.2.1 (h.2.2.1 rfl rfl)⟩

/-- C7: a camera card starts in the snapshot state — `isVideoPlaying` is
`false` at mount and the video player is not mounted — and the only event that
takes a non-streaming card into streaming is an explicit play click, which is
only possible when a stream URL exists. -/
theorem c7_image_first (u : Option String) (t0 : Nat) (s : CardState) (e : CardEvent) :
    (initCard t0).isVideoPlaying = false ∧
    playerMounted u (initCard t0) = false ∧
    (s.isVideoPlaying = false → (stepCard u s e).isVideoPlaying = true →
      e = CardEvent.clickPlay ∧ u.isSome = true) := by
  refine ⟨rfl, by simp [playerMounted, initCard], ?_⟩
  intro h0 h1
  cases e <;> simp [stepCard, playOffered, playerMounted, timerActive, h0] at h1 ⊢
  · split at h1
    · rename_i hc
      simpa [h0] using hc
    · simp [h0] at h1

/-- Witness for C7: clicking play on a visible, non-streaming card whose
record has a stream URL — the conclusion names the event and the URL
presence. -/
theorem c7_image_first_witness :
    CardEvent.clickPlay = CardEvent.clickPlay ∧ (some "http://x/s.m3u8").isSome = true :=
  (c7_image_first (some "http://x/s.m3u8") 0
    { isInView := true, isVideoPlaying := false, timestamp := 0 } .clickPlay).2.2 rfl rfl

theorem runCard_no_url_not_playing (evs : List CardEvent) (s : CardState)
    (h : s.isVideoPlaying = false) : (runCard none s evs).isVideoPlaying = false := by
  induction evs generalizing s with
  | nil => simpa [runCard] using h
  | cons e t ih =>
    have hstep : (stepCard none s e).isVideoPlaying = false := by
      cases e <;> simp [stepCard, playOffered, playerMounted, timerActive, h]
    simpa [runCard] using ih _ hstep

/-- C8: a camera card whose record has no stream URL never plays: under every
event sequence from mount, `isVideoPlaying` stays `false`, the video player is
never mounted, and the play action is never offered. -/
theorem c8_no_stream_never_plays (t0 : Nat) (evs : List CardEvent) :
    (runCard none (initCard t0) evs).isVideoPlaying = false ∧
    playerMounted none (runCard none (initCard t0) evs) = false ∧
    playOffered none (runCard none (initCard t0) evs) = false := by
  refine ⟨runCard_no_url_not_playing evs (initCard t0) rfl, ?_, ?_⟩
  · simp [playerMounted]
  · simp [playOffered]

/-- C9 counterexample: the claim states a marker is placed exactly for records
whose latitude and longitude both parse as finite numbers.  `infinityCamera`
has latitude `"Infinity"`, which `parseFloat` parses to the non-finite
`Infinity`; `!isNaN` admits it, so the record receives a marker although its
latitude does not parse as a finite number. -/
theorem c9_counterexample :
    validCameras [infinityCamera] = [infinityCamera] ∧
    parsesFinite infinityCamera.location.latitude = false ∧
    infinityCamera.location.latitude = "Infinity" :=
  ⟨rfl, rfl, rfl⟩

/-- C9 (amended): map placement places a marker exactly for those records
whose latitude and longitude strings are non-empty and do not parse as `NaN`
(values parsing to `±Infinity` are not excluded); every record failing this is
skipped, and each skip removes exactly that record without affecting the
others. -/
theorem c9_marker_placement (cams : List TrafficCamera) (c : TrafficCamera)
    (xs ys : List TrafficCamera) :
    (c ∈ validCameras cams ↔ c ∈ cams ∧ markerPred c = true) ∧
    (markerPred c = true ↔
      (c.location.latitude ≠ "" ∧ c.location.longitude ≠ "" ∧
        isNanB (jsParseFloat c.location.latitude) = false ∧
        isNanB (jsParseFloat c.location.longitude) = false)) ∧
    (markerPred c = false → validCameras (xs ++ c :: ys) = validCameras (xs ++ ys)) := by
  refine ⟨by simp [validCameras, List.mem_filter], ?_, ?_⟩
  · simp [markerPred, Bool.and_eq_true, and_assoc]
  · intro h
    simp [validCameras, List.filter_append, h]

/-- Witness for C9 (amended): a record with unparseable latitude `"n/a"` is
skipped from the middle of the list and the surrounding records are kept. -/
theorem c9_marker_placement_witness :
    validCameras ([infinityCamera] ++ badLatCamera :: []) =
      validCameras ([infinityCamera] ++ []) :=
  (c9_marker_placement [] badLatCamera [infinityCamera] []).2.2 rfl

/-- C10: whenever the flat case-insensitive scan for a URL finds no
`http`-prefixed string value, the resolver's result is exactly the
nested-object fallback, which consults only the property under the exact
lowercase key (`imageurl` / `video_url` / `web_url` respectively): with no
binding under that exact key the fallback yields nothing — a nested object
under a differently-cased key is never consulted — and a string found in the
consulted object's `url` field is accepted as-is, with no `http` requirement. -/
theorem c10_nested_fallback (props : List (String × JsonVal)) (k : String)
    (fields : List (String × JsonVal)) (s : String) :
    (findUrl props ["imageurl", "image_url", "imagelink", "photo_url", "snapshot_url"] = "" →
      rawImageUrl props = nestedUrl props "imageurl") ∧
    (findUrl props ["video_url", "videourl", "stream_url", "hls_url", "hlsurl"] = "" →
      rawVideoUrl props = nestedUrl props "video_url") ∧
    (findUrl props ["web_url", "weburl", "link", "url"] = "" →
      rawWebUrl props = nestedUrl props "web_url") ∧
    (lookupKey props k = none → nestedUrl props k = "") ∧
    (lookupKey props k = some (.obj fields) → lookupKey fields "url" = some (.str s) →
      nestedUrl props k = s) := by
  refine ⟨?_, ?_, ?_, ?_, ?_⟩
  · intro h
    simp [rawImageUrl, resolveUrl, h]
  · intro h
    simp [rawVideoUrl, resolveUrl, h]
  · intro h
    simp [rawWebUrl, resolveUrl, h]
  · intro h
    simp [nestedUrl, h]
  · intro h1 h2
    simp [nestedUrl, h1, h2, urlFieldToString]

/-- Witness for C10 at `nestedOnlyProps`: the flat scan fails, the
differently-cased `ImageURL` object (with an `http` URL) is ignored, the exact
`imageurl` object's non-`http` URL is accepted, and a key with no exact
binding yields nothing. -/
theorem c10_nested_fallback_witness :
    rawImageUrl nestedOnlyProps = "ftp://b/img.jpg" ∧
      nestedUrl nestedOnlyProps "video_url" = "" := by
  have h1 := c10_nested_fallback nestedOnlyProps "imageurl"
    [("url", JsonVal.str "ftp://b/img.jpg")] "ftp://b/img.jpg"
  have h2 := c10_nested_fallback nestedOnlyProps "video_url" [] ""
  exact ⟨(h1.1 rfl).trans (h1.2.2.2.2 rfl rfl), h2.2.2.2.1 rfl⟩

end TrafficFeed
